import Mathlib

/-!
# Verification of the panorama walkthrough navigation core (`src/components/Map.tsx`)

Shallow embedding of the scene registry, the hotspot placement resolver
(`getPrevFootstepData` / `getNextFootstepData`), the navigation state machine
(`handleNavigate` over `currentImageId`), the footstep interaction handler,
the camera-reset effect and the `Map` render pipeline.

Modelling conventions:
* JS numbers are modelled as exact rationals (`ℚ`).  `Math.PI` is modelled by
  `mathPI`, the exact rational value of the IEEE-754 double nearest π.
  Products such as `Math.PI * 0.75` are taken exactly in `ℚ` rather than with
  float rounding; every property verified here depends only on whether such a
  value is zero and on equality of syntactically identical constant
  expressions, and those coincide under exact and rounded arithmetic
  (no value involved is subnormal and no two distinct constants collide).
* JS `undefined`/`null` are modelled with `Option`; optional chaining
  `a?.b?.c` becomes `(a.bind b).map c`.
* The JS `x || d` default idiom is modelled by truthiness-aware helpers:
  the number `0` is falsy, arrays and non-empty objects are always truthy.
* React state cells (`useState`, `useRef`) become explicit state passed
  through step functions; event handlers become transitions on that state.
-/

/-- `FootstepPosition` from the source: a custom hotspot placement,
`{ position: [number, number, number]; rotation: number }`. -/
structure FootstepPosition where
  position : ℚ × ℚ × ℚ
  rotation : ℚ
deriving DecidableEq, Repr

/-- `PanoramaImage` from the source: one scene record of the registry. -/
structure PanoramaImage where
  id : ℤ
  name : String
  url : String
  position : ℚ × ℚ × ℚ
  prev : Option ℤ
  next : Option ℤ
  prevFootstep : Option FootstepPosition := none
  nextFootstep : Option FootstepPosition := none
deriving DecidableEq, Repr

/-- The exact rational value of the IEEE-754 double `Math.PI`
(`884279719003555 / 2^48`). -/
def mathPI : ℚ := 884279719003555 / 2 ^ 48

/-- Scene 1 ("Entrance") of the compiled-in registry: `prev: null`,
`next: 2`, custom `nextFootstep` at `[3, -4, 3]` with rotation
`Math.PI * -0.75`. -/
def scene1 : PanoramaImage where
  id := 1
  name := "Entrance"
  url := "/assets/360%20images/1-Entrance.jpeg"
  position := (0, 0, 0)
  prev := none
  next := some 2
  nextFootstep := some { position := (3, -4, 3), rotation := mathPI * (-0.75) }

/-- Scene 2 ("Window Table"): `prev: 1`, `next: 3`, custom prev footstep at
`[-5, -4, 2]` rotation `Math.PI * 0.5`, custom next footstep at `[5, -4, 0]`
rotation `Math.PI * -0.5`. -/
def scene2 : PanoramaImage where
  id := 2
  name := "Window Table"
  url := "/assets/360%20images/2-Window%20Table.jpeg"
  position := (5, 0, 0)
  prev := some 1
  next := some 3
  prevFootstep := some { position := (-5, -4, 2), rotation := mathPI * 0.5 }
  nextFootstep := some { position := (5, -4, 0), rotation := mathPI * (-0.5) }

/-- Scene 3 ("Window Table 2"): `prev: 2`, `next: 4`, custom prev footstep at
`[1.5, -4, -5]` rotation `Math.PI * 2`, custom next footstep at `[0, -4, 5]`
rotation `Math.PI`. -/
def scene3 : PanoramaImage where
  id := 3
  name := "Window Table 2"
  url := "/assets/360%20images/3-Window%20Table%202.jpeg"
  position := (10, 0, 0)
  prev := some 2
  next := some 4
  prevFootstep := some { position := (1.5, -4, -5), rotation := mathPI * 2 }
  nextFootstep := some { position := (0, -4, 5), rotation := mathPI }

/-- Scene 4 ("Corner"): `prev: 3`, `next: null`, custom prev footstep at
`[-3, -4, 8]` rotation `Math.PI * 0.7`. -/
def scene4 : PanoramaImage where
  id := 4
  name := "Corner"
  url := "/assets/360%20images/4-Corner.jpeg"
  position := (5, 0, -5)
  prev := some 3
  next := none
  prevFootstep := some { position := (-3, -4, 8), rotation := mathPI * 0.7 }

/-- `panoramaImages`: the compiled-in scene registry, in source order. -/
def panoramaImages : List PanoramaImage := [scene1, scene2, scene3, scene4]

/-- JS `x || d` where `x` is an optionally-chained *number* expression:
`undefined` and the falsy number `0` both select the default `d`. -/
def jsOrNum (x : Option ℚ) (d : ℚ) : ℚ :=
  match x with
  | some v => if v = 0 then d else v
  | none => d

/-- JS `x || d` where `x` is an optionally-chained *array* expression:
arrays are always truthy, so only `undefined` selects the default. -/
def jsOrArr (x : Option (ℚ × ℚ × ℚ)) (d : ℚ × ℚ × ℚ) : ℚ × ℚ × ℚ :=
  x.getD d

/-- JS `x || null` where `x : number | null | undefined` (the
`currentPanorama?.prev || null` pattern): `undefined`, `null` and the falsy
number `0` all yield `null`. -/
def jsOrNull (x : Option (Option ℤ)) : Option ℤ :=
  match x with
  | some (some v) => if v = 0 then none else some v
  | _ => none

/-- Hotspot direction, the `"prev" | "next"` union of the source. -/
inductive NavDir where
  | prev
  | next
deriving DecidableEq, Repr

/-- The value produced by `getPrevFootstepData` / `getNextFootstepData`:
`{ position, rotation, targetId, direction }`, consumed as the props of one
`Footstep`. -/
structure FootstepData where
  position : ℚ × ℚ × ℚ
  rotation : ℚ
  targetId : Option ℤ
  direction : NavDir
deriving DecidableEq, Repr

/-- `getPrevFootstepData` from `PanoramaSphere` (source lines 226–237):
default position `[-3, -4, 5]`, default rotation `Math.PI * 0.75`, each field
resolved with the JS `||` default idiom over the optional chain
`currentPanorama?.prevFootstep?._`. -/
def getPrevFootstepData (currentPanorama : Option PanoramaImage) : FootstepData :=
  let defaultPosition : ℚ × ℚ × ℚ := (-3, -4, 5)
  let defaultRotation : ℚ := mathPI * 0.75
  { position :=
      jsOrArr ((currentPanorama.bind (·.prevFootstep)).map (·.position)) defaultPosition
    rotation :=
      jsOrNum ((currentPanorama.bind (·.prevFootstep)).map (·.rotation)) defaultRotation
    targetId := jsOrNull (currentPanorama.map (·.prev))
    direction := NavDir.prev }

/-- `getNextFootstepData` from `PanoramaSphere` (source lines 239–250):
default position `[3, -4, 5]`, default rotation `Math.PI * 0.25`. -/
def getNextFootstepData (currentPanorama : Option PanoramaImage) : FootstepData :=
  let defaultPosition : ℚ × ℚ × ℚ := (3, -4, 5)
  let defaultRotation : ℚ := mathPI * 0.25
  { position :=
      jsOrArr ((currentPanorama.bind (·.nextFootstep)).map (·.position)) defaultPosition
    rotation :=
      jsOrNum ((currentPanorama.bind (·.nextFootstep)).map (·.rotation)) defaultRotation
    targetId := jsOrNull (currentPanorama.map (·.next))
    direction := NavDir.next }

/-- The registry lookup `panoramaImages.find((img) => img.id === id)`,
as performed by `Map`, `PanoramaSphere` and the hover label. -/
def lookupScene (id : ℤ) : Option PanoramaImage :=
  panoramaImages.find? (fun img => img.id == id)

/-- `handleNavigate` of `Map` (source lines 296–298): the state transition of
the navigation state machine.  `setCurrentImageId(imageId)` replaces the
current scene id with `imageId`, unconditionally. -/
def handleNavigate (imageId : ℤ) (currentImageId : ℤ) : ℤ :=
  let _ := currentImageId
  imageId

/-- The pointer events a `Footstep` mesh can receive. -/
inductive FsEvent where
  | pointerOver
  | pointerOut
  | click
deriving DecidableEq, Repr

/-- `const isDisabled = targetId === null` from `Footstep`. -/
def isDisabled (targetId : Option ℤ) : Bool :=
  targetId.isNone

/-- One `Footstep` interaction (source lines 119–138), as a transition on the
pair (the hotspot's `hovered` flag, the application's `currentImageId`):
* `onPointerOver={() => !isDisabled && setHovered(true)}`;
* `onPointerOut={() => setHovered(false)}`;
* `onClick={isDisabled ? undefined : handleClick}` where `handleClick` stops
  propagation and calls `onClick(targetId)` — wired to `handleNavigate` —
  when `targetId !== null`. -/
def footstepStep (targetId : Option ℤ) (ev : FsEvent) (hovered : Bool)
    (currentImageId : ℤ) : Bool × ℤ :=
  match ev with
  | FsEvent.pointerOver =>
      (if isDisabled targetId then hovered else true, currentImageId)
  | FsEvent.pointerOut => (false, currentImageId)
  | FsEvent.click =>
      if isDisabled targetId then (hovered, currentImageId)
      else
        match targetId with
        | some t => (hovered, handleNavigate t currentImageId)
        | none => (hovered, currentImageId)

/-- The footstep material opacity
`isDisabled ? 0.3 : hovered ? 1 : 0.7` (source line 145). -/
def footstepOpacity (targetId : Option ℤ) (hovered : Bool) : ℚ :=
  if isDisabled targetId then 0.3 else if hovered then 1 else 0.7

/-- The hover label of a `Footstep` (source lines 173–189): rendered only when
`hovered && targetId !== null`, reading
`direction === "next" ? "Next: " : "Previous: "` followed by
`panoramaImages.find((img) => img.id === targetId)?.name` (an absent name
renders as nothing). -/
def footstepLabel (direction : NavDir) (targetId : Option ℤ)
    (hovered : Bool) : Option String :=
  match hovered, targetId with
  | true, some t =>
      some ((match direction with
              | NavDir.next => "Next: "
              | NavDir.prev => "Previous: ") ++
            (((lookupScene t).map (·.name)).getD ""))
  | _, _ => none

/-- The camera-reset effect of `PanoramaSphere` (source lines 211–216), as a
transition on the pair (`lastPositionRef.current`, the camera rotation):
`if (lastPositionRef.current !== imageUrl) { camera.rotation.set(0,0,0);
lastPositionRef.current = imageUrl }`.  `lastPositionRef` starts as `null`. -/
def cameraResetEffect (imageUrl : String) (lastPosition : Option String)
    (cameraRotation : ℚ × ℚ × ℚ) : Option String × (ℚ × ℚ × ℚ) :=
  if lastPosition ≠ some imageUrl then (some imageUrl, (0, 0, 0))
  else (lastPosition, cameraRotation)

/-- What `PanoramaSphere` asks the engine to draw: the inverted textured
sphere plus the two footsteps produced by the placement resolver. -/
structure SphereView where
  imageUrl : String
  prevFootstep : FootstepData
  nextFootstep : FootstepData
deriving DecidableEq, Repr

/-- `PanoramaSphere` (source lines 201–264) as a pure view function: it looks
up `currentImageId` itself (`const currentPanorama = panoramaImages.find(...)`)
and resolves both footsteps. -/
def panoramaSphereView (imageUrl : String) (currentImageId : ℤ) : SphereView :=
  let currentPanorama := lookupScene currentImageId
  { imageUrl := imageUrl
    prevFootstep := getPrevFootstepData currentPanorama
    nextFootstep := getNextFootstepData currentPanorama }

/-- One button of the bottom navigation UI: id, label, active flag. -/
structure NavButton where
  id : ℤ
  label : String
  active : Bool
deriving DecidableEq, Repr

/-- The button list of `Map` (source lines 357–367): one button per registry
entry, calling `setCurrentImageId(img.id)`. -/
def navButtons (currentImageId : ℤ) : List NavButton :=
  panoramaImages.map (fun img =>
    { id := img.id, label := img.name, active := currentImageId == img.id })

/-- The content `Map` renders for a given `currentImageId`. -/
structure MapView where
  sphere : SphereView
  locationName : String
  buttons : List NavButton
deriving DecidableEq, Repr

/-- The `Map` render pipeline (source lines 292–391).  `Map` computes
`currentImage = panoramaImages.find((img) => img.id === currentImageId)` and
then evaluates `currentImage!.url` and `currentImage!.name` while building its
JSX; when the lookup failed these non-null-asserted accesses dereference
`undefined` and throw a `TypeError`, aborting the render with no output. -/
def mapRender (currentImageId : ℤ) : Except String MapView :=
  match lookupScene currentImageId with
  | none => Except.error "TypeError: currentImage is undefined"
  | some currentImage =>
      Except.ok
        { sphere := panoramaSphereView currentImage.url currentImageId
          locationName := currentImage.name
          buttons := navButtons currentImageId }

/-- Well-formedness of a scene registry, as the spec's invariants state it:
unique positive ids, chain symmetry (`S.next = T.id → T.prev = S.id`),
exactly one head (`prev = none`), exactly one tail (`next = none`), and every
non-none link references an id present in the registry. -/
def registryWellFormed (imgs : List PanoramaImage) : Prop :=
  (imgs.map (·.id)).Nodup ∧
  (∀ p ∈ imgs, 0 < p.id) ∧
  (∀ s ∈ imgs, ∀ t ∈ imgs, s.next = some t.id → t.prev = some s.id) ∧
  (imgs.filter (fun p => p.prev = none)).length = 1 ∧
  (imgs.filter (fun p => p.next = none)).length = 1 ∧
  (∀ p ∈ imgs, (∀ x ∈ p.prev.toList, ∃ q ∈ imgs, q.id = x) ∧
    (∀ x ∈ p.next.toList, ∃ q ∈ imgs, q.id = x))

instance : DecidablePred (fun imgs => registryWellFormed imgs) := by
  intro imgs
  unfold registryWellFormed
  infer_instance

/-- A scene whose previous-direction override carries rotation `0`: a legal
`PanoramaImage` value used to probe how the resolver treats a present but
zero rotation override. -/
def zeroRotScene : PanoramaImage where
  id := 7
  name := "ZeroRot"
  url := "/assets/zero.jpeg"
  position := (0, 0, 0)
  prev := some 3
  next := none
  prevFootstep := some { position := (-1, -4, 2), rotation := 0 }

/-- Claim C1, counterexample: `zeroRotScene` defines a previous-direction
override with rotation `0`, yet the resolver returns the default rotation
`Math.PI * 0.75` instead of the override's `0` — the JS `||` default idiom
treats a present rotation override of `0` as absent, refuting the claim that
an override is honoured whenever present, including rotation `0`. -/
theorem C1_counterexample :
    zeroRotScene.prevFootstep =
      some { position := (-1, -4, 2), rotation := 0 } ∧
    (getPrevFootstepData (some zeroRotScene)).rotation = mathPI * 0.75 ∧
    (getPrevFootstepData (some zeroRotScene)).rotation ≠ 0 := by
  refine ⟨rfl, rfl, ?_⟩
  show mathPI * 0.75 ≠ 0
  norm_num [mathPI]

/-- Claim C1 (amended): for every scene and direction, the resolver returns
the override position whenever an override is present, and the override
rotation whenever it is present and nonzero; a rotation override of exactly
`0` falls back to the direction default, and scenes without an override get
the fixed direction-keyed defaults (position `[-3,-4,5]` / rotation
`π·0.75` for Previous, position `[3,-4,5]` / rotation `π·0.25` for Next). -/
theorem C1_resolver_defaults (p : PanoramaImage) :
    ((getPrevFootstepData (some p)).position =
      match p.prevFootstep with
      | some fp => fp.position
      | none => (-3, -4, 5)) ∧
    ((getPrevFootstepData (some p)).rotation =
      match p.prevFootstep with
      | some fp => if fp.rotation = 0 then mathPI * 0.75 else fp.rotation
      | none => mathPI * 0.75) ∧
    ((getNextFootstepData (some p)).position =
      match p.nextFootstep with
      | some fp => fp.position
      | none => (3, -4, 5)) ∧
    ((getNextFootstepData (some p)).rotation =
      match p.nextFootstep with
      | some fp => if fp.rotation = 0 then mathPI * 0.25 else fp.rotation
      | none => mathPI * 0.25) := by
  refine ⟨?_, ?_, ?_, ?_⟩ <;>
    cases hp : p.prevFootstep <;> cases hn : p.nextFootstep <;>
      simp [getPrevFootstepData, getNextFootstepData, jsOrArr, jsOrNum, hp, hn]

/-- Claim C2: for every scene in the registry, the resolved Previous hotspot
carries `targetId = scene.prev` and the resolved Next hotspot carries
`targetId = scene.next` — the resolver never invents or drops a link
(registry ids, hence link values, are positive). -/
theorem C2_resolver_preserves_links : ∀ p ∈ panoramaImages,
    (getPrevFootstepData (some p)).targetId = p.prev ∧
    (getNextFootstepData (some p)).targetId = p.next := by
  decide

/-- Witness for C2 at the registry's second scene. -/
theorem C2_witness :
    (getPrevFootstepData (some scene2)).targetId = scene2.prev ∧
    (getNextFootstepData (some scene2)).targetId = scene2.next :=
  C2_resolver_preserves_links scene2 (by simp [panoramaImages])

/-- Claim C3: for any id that resolves in the registry, `handleNavigate`
synchronously sets `currentImageId` to that id, an immediate lookup of the
new state returns the scene with that id, and re-navigating to the current
id is an idempotent no-op. -/
theorem C3_navigate_roundtrip : ∀ (st id : ℤ) (s : PanoramaImage),
    lookupScene id = some s →
    handleNavigate id st = id ∧
    lookupScene (handleNavigate id st) = some s ∧
    s.id = id ∧
    handleNavigate id (handleNavigate id st) = handleNavigate id st := by
  intro st id s h
  have h' : panoramaImages.find? (fun img => img.id == id) = some s := h
  have hid : s.id = id := by simpa using List.find?_some h'
  exact ⟨rfl, h, hid, rfl⟩

/-- Witness for C3 at id 2, starting from state 1. -/
theorem C3_witness :
    handleNavigate 2 1 = 2 ∧
    lookupScene (handleNavigate 2 1) = some scene2 ∧
    scene2.id = 2 ∧
    handleNavigate 2 (handleNavigate 2 1) = handleNavigate 2 1 :=
  C3_navigate_roundtrip 1 2 scene2 (by rfl)

/-- Claim C4: a disabled hotspot (`targetId = none`) is inert — every pointer
event leaves both the hover flag and `currentImageId` unchanged, its opacity
stays at the disabled constant `0.3` regardless of hover, and the resolver
still returns a drawable position/rotation for it (scene 1's Previous
hotspot: default position and rotation with `targetId = none`). -/
theorem C4_disabled_hotspot_inert :
    ∀ (ev : FsEvent) (nav : ℤ) (hovered : Bool),
    footstepStep none ev false nav = (false, nav) ∧
    (footstepStep none FsEvent.click hovered nav).2 = nav ∧
    footstepOpacity none hovered = 0.3 ∧
    (getPrevFootstepData (some scene1)).targetId = none ∧
    (getPrevFootstepData (some scene1)).position = (-3, -4, 5) ∧
    (getPrevFootstepData (some scene1)).rotation = mathPI * 0.75 := by
  intro ev nav hovered
  refine ⟨?_, rfl, rfl, rfl, rfl, rfl⟩
  cases ev <;> rfl

/-- Claim C5: the compiled-in registry is a well-formed doubly-linked chain —
unique positive ids, chain symmetry, exactly one head and one tail, and all
links reference registry ids. -/
theorem C5_registry_well_formed : registryWellFormed panoramaImages := by
  decide

/-- Claim C6: navigations apply in dispatch order with no queuing — from
state 1, navigate 2, then 1, then 3 passes through exactly those states and
ends at 3. -/
theorem C6_sequential_navigation :
    handleNavigate 2 1 = 2 ∧
    handleNavigate 1 (handleNavigate 2 1) = 1 ∧
    handleNavigate 3 (handleNavigate 1 (handleNavigate 2 1)) = 3 ∧
    List.foldl (fun st id => handleNavigate id st) 1 [2, 1, 3] = 3 :=
  ⟨rfl, rfl, rfl, rfl⟩

/-- Claim C7: when `currentImageId` has no registry entry, `Map`'s render
throws (the `currentImage!.url` access dereferences `undefined`), producing
an error and no rendered content — no fallback scene, name or hotspot data. -/
theorem C7_dangling_id_aborts : ∀ id : ℤ, lookupScene id = none →
    mapRender id = Except.error "TypeError: currentImage is undefined" := by
  intro id h
  simp [mapRender, h]

/-- Witness for C7 at the absent id 99. -/
theorem C7_witness :
    mapRender 99 = Except.error "TypeError: currentImage is undefined" :=
  C7_dangling_id_aborts 99 (by decide)

/-- Claim C8: the camera orientation is reset to `(0,0,0)` exactly when the
displayed image reference differs from the previously displayed one
(`lastPositionRef`), and is left untouched when it is unchanged. -/
theorem C8_camera_reset_iff_image_changed :
    ∀ (imageUrl : String) (lastPosition : Option String) (cam : ℚ × ℚ × ℚ),
    (lastPosition ≠ some imageUrl →
      cameraResetEffect imageUrl lastPosition cam = (some imageUrl, (0, 0, 0))) ∧
    (lastPosition = some imageUrl →
      cameraResetEffect imageUrl lastPosition cam = (lastPosition, cam)) := by
  intro url last cam
  constructor
  · intro h
    simp [cameraResetEffect, h]
  · intro h
    simp [cameraResetEffect, h]

/-- Witness for C8: first display of an image resets the camera; a re-render
with the same image reference leaves it untouched. -/
theorem C8_witness :
    cameraResetEffect "a.jpeg" none (1, 2, 3) = (some "a.jpeg", (0, 0, 0)) ∧
    cameraResetEffect "a.jpeg" (some "a.jpeg") (1, 2, 3) =
      (some "a.jpeg", (1, 2, 3)) :=
  ⟨(C8_camera_reset_iff_image_changed "a.jpeg" none (1, 2, 3)).1 (by decide),
   (C8_camera_reset_iff_image_changed "a.jpeg" (some "a.jpeg") (1, 2, 3)).2 rfl⟩

/-- Claim C9: for an enabled, hovered hotspot whose target resolves in the
registry, the label is the target scene's name prefixed by the direction:
`"Next: <name>"` or `"Previous: <name>"`. -/
theorem C9_hover_label : ∀ (t : ℤ) (s : PanoramaImage),
    lookupScene t = some s →
    footstepLabel NavDir.next (some t) true = some ("Next: " ++ s.name) ∧
    footstepLabel NavDir.prev (some t) true = some ("Previous: " ++ s.name) := by
  intro t s h
  constructor <;> simp [footstepLabel, h]

/-- Witness for C9 at target id 2 ("Window Table"). -/
theorem C9_witness :
    footstepLabel NavDir.next (some 2) true = some ("Next: " ++ scene2.name) ∧
    footstepLabel NavDir.prev (some 2) true =
      some ("Previous: " ++ scene2.name) :=
  C9_hover_label 2 scene2 (by rfl)

/-- Claim C10: `handleNavigate` validates nothing — it sets the state to any
integer id, including ids absent from the registry (99) — while the callers
only ever pass registry-derived ids (every nav button's id resolves). -/
theorem C10_navigate_unvalidated :
    (∀ imageId currentImageId : ℤ,
      handleNavigate imageId currentImageId = imageId) ∧
    lookupScene 99 = none ∧
    handleNavigate 99 0 = 99 ∧
    (∀ currentImageId : ℤ,
      ((navButtons currentImageId).map (·.id)).all
        (fun i => (lookupScene i).isSome) = true) := by
  refine ⟨fun _ _ => rfl, by decide, rfl, fun cid => rfl⟩
